import Mathlib

/-!
Verification development for the langstar repository: a shallow embedding of
the SDK client (header construction, resource clients, JSON decode) and the
CLI scope-resolution / polling logic, with theorems settling the spec claims.
-/

namespace Langstar

/-- A model of `serde_json::Value`: JSON documents, with objects as ordered
key/value association lists (`Value::get` looks a key up). -/
inductive Json where
  | null
  | bool (b : Bool)
  | num (n : Nat)
  | str (s : String)
  | arr (xs : List Json)
  | obj (fields : List (String × Json))

/-- `serde_json::Value::get(key)`: `Some` only on objects containing the key. -/
def Json.getField : Json → String → Option Json
  | .obj fields, key => fields.lookup key
  | _, _ => none

/-- `serde_json::Value::as_str`: `Some` only on strings. -/
def Json.asStr : Json → Option String
  | .str s => some s
  | _ => none

/-- The SDK error type `LangstarError` (the constructors the claims touch). -/
inductive LangstarError where
  /-- `LangstarError::AuthError(message)` -/
  | AuthError (message : String)
  /-- `LangstarError::ApiError { status, message }` -/
  | ApiError (status : Nat) (message : String)
deriving DecidableEq

/-- HTTP method of a built request. -/
inductive Method where
  | GET
  | POST
  | PUT
  | PATCH
  | DELETE
deriving DecidableEq

/-- A built HTTP request: the observable outcome of a `reqwest::RequestBuilder`
chain (method, full URL, ordered header list, optional JSON body). -/
structure Request where
  method : Method
  url : String
  headers : List (String × String)
  body : Option Json

/-- Whether a built request carries a header with the given name. -/
def Request.hasHeader (r : Request) (name : String) : Bool :=
  r.headers.any (fun h => h.1 == name)

/-- `AuthConfig` from `sdk/src/auth.rs`. -/
structure AuthConfig where
  langsmith_api_key : Option String
  langgraph_api_key : Option String
  organization_id : Option String
  workspace_id : Option String

/-- `AuthConfig::new`. -/
def AuthConfig.new (langsmith_api_key langgraph_api_key organization_id
    workspace_id : Option String) : AuthConfig :=
  ⟨langsmith_api_key, langgraph_api_key, organization_id, workspace_id⟩

/-- `AuthConfig::require_langsmith_key`. -/
def AuthConfig.require_langsmith_key (a : AuthConfig) : Except LangstarError String :=
  match a.langsmith_api_key with
  | some k => .ok k
  | none => .error (.AuthError
      "LANGSMITH_API_KEY not configured. Set it via environment variable or config file.")

/-- `AuthConfig::require_langgraph_key`. -/
def AuthConfig.require_langgraph_key (a : AuthConfig) : Except LangstarError String :=
  match a.langgraph_api_key with
  | some k => .ok k
  | none => .error (.AuthError
      "LANGGRAPH_API_KEY not configured. Set it via environment variable or config file.")

def LANGSMITH_API_BASE : String := "https://api.smith.langchain.com"
def LANGGRAPH_API_BASE : String := "https://api.langgraph.cloud"
def CONTROL_PLANE_API_BASE : String := "https://api.host.langchain.com"

/-- `LangchainClient` from `sdk/src/client.rs` (the HTTP transport handle is
not modelled; everything the claims observe is kept). -/
structure LangchainClient where
  auth : AuthConfig
  langsmith_base_url : String
  langgraph_base_url : String
  control_plane_base_url : String
  organization_id : Option String
  workspace_id : Option String

/-- `LangchainClient::new` (the reqwest builder cannot fail in the model, so
the `Result` wrapper is dropped). -/
def LangchainClient.new (auth : AuthConfig) : LangchainClient :=
  { auth := auth
    langsmith_base_url := LANGSMITH_API_BASE
    langgraph_base_url := LANGGRAPH_API_BASE
    control_plane_base_url := CONTROL_PLANE_API_BASE
    organization_id := auth.organization_id
    workspace_id := auth.workspace_id }

/-- `LangchainClient::with_organization_id`. -/
def LangchainClient.with_organization_id (c : LangchainClient) (org_id : String) :
    LangchainClient :=
  { c with organization_id := some org_id }

/-- `LangchainClient::with_workspace_id`. -/
def LangchainClient.with_workspace_id (c : LangchainClient) (workspace_id : String) :
    LangchainClient :=
  { c with workspace_id := some workspace_id }

/-- The LangSmith (prompt-hub) header set shared by `langsmith_get`,
`langsmith_post` and `langsmith_put`: api key and content type, then the
organization header if set, then the tenant header if set. -/
def LangchainClient.langsmithHeaders (c : LangchainClient) (api_key : String) :
    List (String × String) :=
  let headers := [("x-api-key", api_key), ("Content-Type", "application/json")]
  let headers := match c.organization_id with
    | some org_id => headers ++ [("x-organization-id", org_id)]
    | none => headers
  match c.workspace_id with
  | some ws_id => headers ++ [("X-Tenant-Id", ws_id)]
  | none => headers

/-- `LangchainClient::langsmith_get`. -/
def LangchainClient.langsmith_get (c : LangchainClient) (path : String) :
    Except LangstarError Request :=
  match c.auth.require_langsmith_key with
  | .error e => .error e
  | .ok api_key =>
      .ok { method := .GET, url := c.langsmith_base_url ++ path
            headers := c.langsmithHeaders api_key, body := none }

/-- `LangchainClient::langsmith_post`. -/
def LangchainClient.langsmith_post (c : LangchainClient) (path : String) :
    Except LangstarError Request :=
  match c.auth.require_langsmith_key with
  | .error e => .error e
  | .ok api_key =>
      .ok { method := .POST, url := c.langsmith_base_url ++ path
            headers := c.langsmithHeaders api_key, body := none }

/-- `LangchainClient::langsmith_put`. -/
def LangchainClient.langsmith_put (c : LangchainClient) (path : String) :
    Except LangstarError Request :=
  match c.auth.require_langsmith_key with
  | .error e => .error e
  | .ok api_key =>
      .ok { method := .PUT, url := c.langsmith_base_url ++ path
            headers := c.langsmithHeaders api_key, body := none }

/-- The LangGraph (graph-runtime) header set shared by all four
`langgraph_*` builders: the api key and content type only. -/
def LangchainClient.langgraphHeaders (api_key : String) : List (String × String) :=
  [("x-api-key", api_key), ("Content-Type", "application/json")]

/-- `LangchainClient::langgraph_get`. -/
def LangchainClient.langgraph_get (c : LangchainClient) (path : String) :
    Except LangstarError Request :=
  match c.auth.require_langgraph_key with
  | .error e => .error e
  | .ok api_key =>
      .ok { method := .GET, url := c.langgraph_base_url ++ path
            headers := LangchainClient.langgraphHeaders api_key, body := none }

/-- `LangchainClient::langgraph_post`. -/
def LangchainClient.langgraph_post (c : LangchainClient) (path : String) :
    Except LangstarError Request :=
  match c.auth.require_langgraph_key with
  | .error e => .error e
  | .ok api_key =>
      .ok { method := .POST, url := c.langgraph_base_url ++ path
            headers := LangchainClient.langgraphHeaders api_key, body := none }

/-- `LangchainClient::langgraph_patch`. -/
def LangchainClient.langgraph_patch (c : LangchainClient) (path : String) :
    Except LangstarError Request :=
  match c.auth.require_langgraph_key with
  | .error e => .error e
  | .ok api_key =>
      .ok { method := .PATCH, url := c.langgraph_base_url ++ path
            headers := LangchainClient.langgraphHeaders api_key, body := none }

/-- `LangchainClient::langgraph_delete`. -/
def LangchainClient.langgraph_delete (c : LangchainClient) (path : String) :
    Except LangstarError Request :=
  match c.auth.require_langgraph_key with
  | .error e => .error e
  | .ok api_key =>
      .ok { method := .DELETE, url := c.langgraph_base_url ++ path
            headers := LangchainClient.langgraphHeaders api_key, body := none }

/-! ## CLI configuration and scope resolution (`cli/src/config.rs`,
`cli/src/commands/prompt.rs`) -/

/-- `Config` from `cli/src/config.rs`. -/
structure Config where
  langsmith_api_key : Option String
  langgraph_api_key : Option String
  organization_id : Option String
  workspace_id : Option String
  github_integration_id : Option String
  output_format : String

/-- `default_output_format`. -/
def default_output_format : String := "table"

/-- `Config::default`. -/
def Config.defaultValue : Config :=
  { langsmith_api_key := none
    langgraph_api_key := none
    organization_id := none
    workspace_id := none
    github_integration_id := none
    output_format := default_output_format }

/-- The process environment restricted to the variables `Config::load` reads:
each field is `some value` when the variable is set. -/
structure Env where
  LANGSMITH_API_KEY : Option String
  LANGGRAPH_API_KEY : Option String
  LANGSMITH_ORGANIZATION_ID : Option String
  LANGSMITH_WORKSPACE_ID : Option String
  LANGGRAPH_GITHUB_INTEGRATION_ID : Option String
  LANGSTAR_OUTPUT_FORMAT : Option String

/-- `Config::load`: start from the file config (`load_from_file().unwrap_or_default()`,
passed in as `file` since file IO is not modelled), then overwrite each field
whose environment variable is set. The both-ids-set stderr advisory has no
effect on the returned value and is not modelled. -/
def Config.load (file : Config) (env : Env) : Config :=
  let config := file
  let config := match env.LANGSMITH_API_KEY with
    | some key => { config with langsmith_api_key := some key }
    | none => config
  let config := match env.LANGGRAPH_API_KEY with
    | some key => { config with langgraph_api_key := some key }
    | none => config
  let config := match env.LANGSMITH_ORGANIZATION_ID with
    | some org_id => { config with organization_id := some org_id }
    | none => config
  let config := match env.LANGSMITH_WORKSPACE_ID with
    | some workspace_id => { config with workspace_id := some workspace_id }
    | none => config
  let config := match env.LANGGRAPH_GITHUB_INTEGRATION_ID with
    | some integration_id => { config with github_integration_id := some integration_id }
    | none => config
  match env.LANGSTAR_OUTPUT_FORMAT with
  | some format => { config with output_format := format }
  | none => config

/-- `Config::to_auth_config`. -/
def Config.to_auth_config (c : Config) : AuthConfig :=
  AuthConfig.new c.langsmith_api_key c.langgraph_api_key c.organization_id c.workspace_id

/-- `PromptCommands::apply_scoping`: apply the `--organization-id` and
`--workspace-id` CLI flags, when given, over the client built from the loaded
config (stderr warnings have no effect on the returned client). -/
def PromptCommands.apply_scoping (client : LangchainClient)
    (flag_org_id flag_workspace_id : Option String) : LangchainClient :=
  let client := match flag_org_id with
    | some org_id => client.with_organization_id org_id
    | none => client
  match flag_workspace_id with
  | some workspace_id => client.with_workspace_id workspace_id
  | none => client

/-- The full CLI scope-resolution pipeline for one prompt command invocation:
`Config::load` (file merged with environment), `Config::to_auth_config`,
`LangchainClient::new`, then `PromptCommands::apply_scoping` with the CLI
flags. -/
def resolvedClient (file : Config) (env : Env) (flag_org_id flag_workspace_id : Option String) :
    LangchainClient :=
  PromptCommands.apply_scoping (LangchainClient.new (Config.load file env).to_auth_config)
    flag_org_id flag_workspace_id

/-- `Visibility` from `sdk/src/prompts.rs`. -/
inductive Visibility where
  | Public
  | Private
  | Any
deriving DecidableEq

/-- `PromptCommands::determine_visibility` from `cli/src/commands/prompt.rs`. -/
def PromptCommands.determine_visibility (client : LangchainClient) (public_flag : Bool) :
    Visibility :=
  let is_scoped := client.organization_id.isSome || client.workspace_id.isSome
  if is_scoped then
    if public_flag then Visibility.Public else Visibility.Private
  else
    Visibility.Any

/-- The poll-interval computation from the `--wait` loop of
`GraphCommands::execute` (`cli/src/commands/graph.rs`): given the elapsed
whole seconds since the create call, the next sleep duration in seconds. -/
def poll_interval (elapsed : Nat) : Nat :=
  if elapsed < 30 then 10 else 30

/-! ## Prompts (`sdk/src/prompts.rs`) -/

/-- `Prompt` from `sdk/src/prompts.rs`. -/
structure Prompt where
  id : String
  repo_handle : String
  description : Option String
  num_likes : Nat
  num_downloads : Nat
  manifest : Option Json
  created_at : Option String
  updated_at : Option String
  is_public : Bool

/-- The client-side visibility post-filter: the `match visibility` block that
appears identically in `PromptClient::list` and `PromptClient::search`,
applied to the page of repos the server returned. -/
def PromptClient.apply_visibility_filter (visibility : Visibility) (repos : List Prompt) :
    List Prompt :=
  match visibility with
  | .Public => repos.filter (fun p => p.is_public)
  | .Private => repos.filter (fun p => !p.is_public)
  | .Any => repos

/-- The request built by `PromptClient::list` (its HTTP half): limit defaults
to 20, offset to 0, and the path carries both. -/
def PromptClient.list_request (c : LangchainClient) (limit offset : Option Nat) :
    Except LangstarError Request :=
  let limit := limit.getD 20
  let offset := offset.getD 0
  c.langsmith_get ("/api/v1/repos/?limit=" ++ toString limit ++ "&offset=" ++ toString offset)

/-- The request built by `PromptClient::search` (its HTTP half): the signature
has no offset parameter; limit defaults to 20, and the path carries the query
term and the limit only. -/
def PromptClient.search_request (c : LangchainClient) (query : String) (limit : Option Nat) :
    Except LangstarError Request :=
  let limit := limit.getD 20
  c.langsmith_get ("/api/v1/repos/?query=" ++ query ++ "&limit=" ++ toString limit)

/-! ## Deployments (`sdk/src/deployments.rs`) -/

/-- `DeploymentSecret`. -/
structure DeploymentSecret where
  name : String
  value : String

/-- `DeploymentSource`: serde `rename_all = "snake_case"`, with
`#[serde(other)]` on `Unknown`. -/
inductive DeploymentSource where
  | Github
  | ExternalDocker
  | Unknown
deriving DecidableEq

/-- `DeploymentStatus`: serde `rename_all = "SCREAMING_SNAKE_CASE"`. `Unknown`
carries `#[default]` but — unlike `DeploymentSource::Unknown` — NO
`#[serde(other)]` attribute. -/
inductive DeploymentStatus where
  | AwaitingDatabase
  | Ready
  | Unused
  | AwaitingDelete
  | Unknown
deriving DecidableEq

/-- serde deserialization of `DeploymentSource`: the two named variants by
their snake_case names; any other string falls to `Unknown` because of its
`#[serde(other)]` attribute; a non-string is a type error. -/
def DeploymentSource.fromJson : Json → Except String DeploymentSource
  | .str "github" => .ok .Github
  | .str "external_docker" => .ok .ExternalDocker
  | .str _ => .ok .Unknown
  | _ => .error "invalid type: expected string"

/-- serde deserialization of `DeploymentStatus`: the five variants by their
SCREAMING_SNAKE_CASE names; with no `#[serde(other)]` attribute on the enum,
any other string is an unknown-variant error. -/
def DeploymentStatus.fromJson : Json → Except String DeploymentStatus
  | .str "AWAITING_DATABASE" => .ok .AwaitingDatabase
  | .str "READY" => .ok .Ready
  | .str "UNUSED" => .ok .Unused
  | .str "AWAITING_DELETE" => .ok .AwaitingDelete
  | .str "UNKNOWN" => .ok .Unknown
  | .str s => .error ("unknown variant " ++ s)
  | _ => .error "invalid type: expected string"

/-- `Deployment`. -/
structure Deployment where
  id : String
  name : String
  source : DeploymentSource
  source_config : Option Json
  source_revision_config : Option Json
  secrets : Option (List DeploymentSecret)
  created_at : String
  updated_at : String
  status : DeploymentStatus
  latest_revision_id : Option String
  active_revision_id : Option String
  image_version : Option String

/-- `Deployment::default` (the `impl Default for Deployment`). -/
def Deployment.defaultValue : Deployment :=
  { id := ""
    name := ""
    source := .Unknown
    source_config := none
    source_revision_config := none
    secrets := none
    created_at := ""
    updated_at := ""
    status := .Unknown
    latest_revision_id := none
    active_revision_id := none
    image_version := none }

/-- serde decode of a required `String` field value. -/
def decodeString : Json → Except String String
  | .str s => .ok s
  | _ => .error "invalid type: expected string"

/-- serde decode of an `Option<String>` field value (`null` is `None`). -/
def decodeOptString : Json → Except String (Option String)
  | .null => .ok none
  | .str s => .ok (some s)
  | _ => .error "invalid type: expected string or null"

/-- serde decode of an `Option<serde_json::Value>` field value (`null` is
`None`, anything else is `Some`). -/
def decodeOptJson : Json → Except String (Option Json)
  | .null => .ok none
  | v => .ok (some v)

/-- serde decode of a `DeploymentSecret` (both fields required). -/
def DeploymentSecret.fromJson (j : Json) : Except String DeploymentSecret := do
  match j.getField "name", j.getField "value" with
  | some n, some v => do
      let name ← decodeString n
      let value ← decodeString v
      .ok { name := name, value := value }
  | none, _ => .error "missing field name"
  | _, none => .error "missing field value"

/-- serde decode of an `Option<Vec<DeploymentSecret>>` field value. -/
def decodeSecrets : Json → Except String (Option (List DeploymentSecret))
  | .null => .ok none
  | .arr xs => do
      let secrets ← xs.mapM DeploymentSecret.fromJson
      .ok (some secrets)
  | _ => .error "invalid type: expected sequence or null"

/-- Decode one struct field under the container-level `#[serde(default)]` of
`Deployment`: a missing field takes the default, a present field must decode
(an unrecognized or ill-typed value is still an error). -/
def fieldOr {α : Type} (j : Json) (key : String) (dflt : α)
    (dec : Json → Except String α) : Except String α :=
  match j.getField key with
  | none => .ok dflt
  | some v => dec v

/-- serde deserialization of `Deployment` (`#[derive(Deserialize)]` with
container-level `#[serde(default)]`): each field decoded from the document,
falling back to `Deployment::default`'s field when absent; a field that is
present but fails to decode fails the whole decode. -/
def Deployment.fromJson (j : Json) : Except String Deployment := do
  let id ← fieldOr j "id" Deployment.defaultValue.id decodeString
  let name ← fieldOr j "name" Deployment.defaultValue.name decodeString
  let source ← fieldOr j "source" Deployment.defaultValue.source DeploymentSource.fromJson
  let source_config ← fieldOr j "source_config" Deployment.defaultValue.source_config decodeOptJson
  let source_revision_config ←
    fieldOr j "source_revision_config" Deployment.defaultValue.source_revision_config decodeOptJson
  let secrets ← fieldOr j "secrets" Deployment.defaultValue.secrets decodeSecrets
  let created_at ← fieldOr j "created_at" Deployment.defaultValue.created_at decodeString
  let updated_at ← fieldOr j "updated_at" Deployment.defaultValue.updated_at decodeString
  let status ← fieldOr j "status" Deployment.defaultValue.status DeploymentStatus.fromJson
  let latest_revision_id ←
    fieldOr j "latest_revision_id" Deployment.defaultValue.latest_revision_id decodeOptString
  let active_revision_id ←
    fieldOr j "active_revision_id" Deployment.defaultValue.active_revision_id decodeOptString
  let image_version ←
    fieldOr j "image_version" Deployment.defaultValue.image_version decodeOptString
  .ok { id := id, name := name, source := source, source_config := source_config
        source_revision_config := source_revision_config, secrets := secrets
        created_at := created_at, updated_at := updated_at, status := status
        latest_revision_id := latest_revision_id, active_revision_id := active_revision_id
        image_version := image_version }

/-- `Deployment::custom_url`:
`source_config.as_ref().and_then(get custom_url).and_then(as_str).map(from)`. -/
def Deployment.custom_url (d : Deployment) : Option String :=
  (d.source_config.bind (fun v => v.getField "custom_url")).bind Json.asStr

/-! ## Assistants (`sdk/src/assistants.rs`) -/

/-- `AssistantSearchRequest`: all three fields optional, each with
`#[serde(skip_serializing_if = "Option::is_none")]`. -/
structure AssistantSearchRequest where
  query : Option String
  limit : Option Nat
  offset : Option Nat

/-- serde serialization of `AssistantSearchRequest`: fields in declaration
order, each omitted entirely (no key at all) when `None`. -/
def AssistantSearchRequest.toJson (r : AssistantSearchRequest) : Json :=
  .obj ((match r.query with
          | some q => [("query", Json.str q)]
          | none => []) ++
        (match r.limit with
          | some l => [("limit", Json.num l)]
          | none => []) ++
        (match r.offset with
          | some o => [("offset", Json.num o)]
          | none => []))

/-- The request built by `AssistantClient::list`: a POST to
`/assistants/search` via `langgraph_post`, with body
`AssistantSearchRequest { query: None, limit, offset }`. -/
def AssistantClient.list_request (c : LangchainClient) (limit offset : Option Nat) :
    Except LangstarError Request :=
  let request_body : AssistantSearchRequest := { query := none, limit := limit, offset := offset }
  match c.langgraph_post "/assistants/search" with
  | .error e => .error e
  | .ok req => .ok { req with body := some request_body.toJson }

/-! ## Integrations (`sdk/src/integrations.rs`) -/

/-- `GitHubIntegration`. -/
structure GitHubIntegration where
  id : String
  name : Option String

/-- `GitHubRepository`. -/
structure GitHubRepository where
  owner : String
  name : String

/-- `IntegrationClient::find_integration_for_repo`, with the two HTTP calls
abstracted: `integrations` is the list `list_github_integrations` returned,
and `repos` maps an integration id to the outcome of
`list_github_repositories` for it. Walk the integrations in order; an
integration whose listing fails is skipped; the first whose listing contains
an owner+name match wins; exhaustion is a 404 `ApiError`. -/
def find_integration_for_repo
    (repos : String → Except LangstarError (List GitHubRepository))
    (integrations : List GitHubIntegration) (owner repo : String) :
    Except LangstarError String :=
  match integrations with
  | [] => .error (.ApiError 404
      ("No integration found with access to " ++ owner ++ "/" ++ repo))
  | integration :: rest =>
      match repos integration.id with
      | .ok rs =>
          if rs.any (fun r => r.owner == owner && r.name == repo) then
            .ok integration.id
          else
            find_integration_for_repo repos rest owner repo
      | .error _ => find_integration_for_repo repos rest owner repo

/-- Whether one integration's repository listing succeeds and contains the
owner+name match (the condition under which the loop body of
`find_integration_for_repo` returns). -/
def listingMatches (repos : String → Except LangstarError (List GitHubRepository))
    (owner repo : String) (integration : GitHubIntegration) : Bool :=
  match repos integration.id with
  | .ok rs => rs.any (fun r => r.owner == owner && r.name == repo)
  | .error _ => false

/-! ## Theorems settling the claims -/

/-- Claim C4: in the deployment create wait-for-ready loop, the computed next
poll interval is a function only of elapsed time since the create call —
10 seconds whenever elapsed time is under 30 seconds and 30 seconds
thereafter; in particular for elapsed 5s, 29s, 31s, 90s the interval is 10s,
10s, 30s, 30s. -/
theorem claim4_wait_loop_staging :
    poll_interval 5 = 10 ∧ poll_interval 29 = 10 ∧
    poll_interval 31 = 30 ∧ poll_interval 90 = 30 ∧
    (∀ elapsed, elapsed < 30 → poll_interval elapsed = 10) ∧
    (∀ elapsed, 30 ≤ elapsed → poll_interval elapsed = 30) := by
  refine ⟨rfl, rfl, rfl, rfl, ?_, ?_⟩
  · intro elapsed h
    simp [poll_interval, h]
  · intro elapsed h
    simp [poll_interval, Nat.not_lt.mpr h]

/-- Witness for claim C4 at concrete elapsed times 7 and 45. -/
theorem claim4_wait_loop_staging_witness :
    poll_interval 7 = 10 ∧ poll_interval 45 = 30 :=
  ⟨claim4_wait_loop_staging.2.2.2.2.1 7 (by decide),
   claim4_wait_loop_staging.2.2.2.2.2 45 (by decide)⟩

/-- Claim C7: the client-side visibility post-filter of `PromptClient::list`
and `PromptClient::search` is idempotent — filtering an already-filtered page
by the same visibility returns the identical list — and filtering with `Any`
is the identity function on the page. -/
theorem claim7_visibility_filter_idempotent :
    (∀ (v : Visibility) (page : List Prompt),
      PromptClient.apply_visibility_filter v (PromptClient.apply_visibility_filter v page) =
        PromptClient.apply_visibility_filter v page) ∧
    (∀ page : List Prompt, PromptClient.apply_visibility_filter .Any page = page) := by
  constructor
  · intro v page
    cases v <;> simp [PromptClient.apply_visibility_filter, List.filter_filter]
  · intro page
    rfl

/-- Claim C5: `Deployment::custom_url` returns the string under the
`custom_url` key of `source_config` when present, and `none` when
`source_config` is absent, when the key is absent, and when the key holds
JSON `null`. -/
theorem claim5_custom_url_extraction :
    ∀ (d : Deployment) (cfg : Json) (u : String),
      (d.source_config = some cfg → cfg.getField "custom_url" = some (.str u) →
        d.custom_url = some u) ∧
      (d.source_config = none → d.custom_url = none) ∧
      (d.source_config = some cfg → cfg.getField "custom_url" = none →
        d.custom_url = none) ∧
      (d.source_config = some cfg → cfg.getField "custom_url" = some .null →
        d.custom_url = none) := by
  intro d cfg u
  refine ⟨?_, ?_, ?_, ?_⟩
  · intro h1 h2
    simp [Deployment.custom_url, h1, h2, Json.asStr]
  · intro h1
    simp [Deployment.custom_url, h1]
  · intro h1 h2
    simp [Deployment.custom_url, h1, h2]
  · intro h1 h2
    simp [Deployment.custom_url, h1, h2, Json.asStr]

/-- A deployment whose `source_config` carries a `custom_url` (with another
key beside it), for the claim C5 witness. -/
def c5cfg : Json := .obj [("custom_url", .str "https://x"), ("integration_id", .str "abc")]

/-- Witness for claim C5: extraction at concrete deployments. -/
theorem claim5_custom_url_extraction_witness :
    ({ Deployment.defaultValue with source_config := some c5cfg } : Deployment).custom_url =
      some "https://x" ∧
    ({ Deployment.defaultValue with source_config := none } : Deployment).custom_url = none ∧
    ({ Deployment.defaultValue with
        source_config := some (.obj [("custom_url", .null)]) } : Deployment).custom_url = none :=
  ⟨(claim5_custom_url_extraction _ c5cfg "https://x").1 rfl rfl,
   (claim5_custom_url_extraction _ c5cfg "https://x").2.1 rfl,
   (claim5_custom_url_extraction _ (.obj [("custom_url", .null)]) "u").2.2.2 rfl rfl⟩

/-- Claim C10: `PromptCommands::determine_visibility` yields `Any` for an
unscoped client regardless of the `--public` flag, and for a scoped client
yields `Public` exactly when the flag is given, `Private` otherwise. -/
theorem claim10_determine_visibility :
    ∀ (client : LangchainClient) (public_flag : Bool),
      (client.organization_id = none → client.workspace_id = none →
        PromptCommands.determine_visibility client public_flag = .Any) ∧
      (client.organization_id.isSome ∨ client.workspace_id.isSome →
        PromptCommands.determine_visibility client public_flag =
          if public_flag then .Public else .Private) := by
  intro client public_flag
  constructor
  · intro h1 h2
    simp [PromptCommands.determine_visibility, h1, h2]
  · intro h
    rcases h with h | h <;> simp [PromptCommands.determine_visibility, h]

/-- An unscoped client for the claim C10 witness. -/
def c10Unscoped : LangchainClient :=
  LangchainClient.new (AuthConfig.new (some "test_key") none none none)

/-- An organization-scoped client for the claim C10 witness. -/
def c10Scoped : LangchainClient :=
  LangchainClient.new (AuthConfig.new (some "test_key") none (some "org-123") none)

/-- Witness for claim C10 at concrete clients. -/
theorem claim10_determine_visibility_witness :
    PromptCommands.determine_visibility c10Unscoped true = .Any ∧
    PromptCommands.determine_visibility c10Scoped true = .Public ∧
    PromptCommands.determine_visibility c10Scoped false = .Private :=
  ⟨(claim10_determine_visibility c10Unscoped true).1 rfl rfl,
   (claim10_determine_visibility c10Scoped true).2 (Or.inl rfl),
   (claim10_determine_visibility c10Scoped false).2 (Or.inl rfl)⟩

/-- A deployment JSON document that is valid except that its `status` is the
unrecognized string `"SUSPENDED"` — the failing input for claim C2. -/
def c2json : Json := .obj
  [("id", .str "123e4567-e89b-12d3-a456-426614174000"),
   ("name", .str "my-deployment"),
   ("source", .str "github"),
   ("created_at", .str "2024-01-01T00:00:00Z"),
   ("updated_at", .str "2024-01-02T00:00:00Z"),
   ("status", .str "SUSPENDED")]

/-- Claim C2 (code bug): `DeploymentStatus` lacks `#[serde(other)]`, so a
deployment document with unrecognized `status` string `"SUSPENDED"` FAILS to
decode with an unknown-variant error instead of succeeding with `Unknown` —
while the recognized strings still decode, and `DeploymentSource` (which does
carry `#[serde(other)]`) maps the same unrecognized string to its `Unknown`. -/
theorem claim2_status_decode_fails :
    DeploymentStatus.fromJson (.str "SUSPENDED") = .error "unknown variant SUSPENDED" ∧
    Deployment.fromJson c2json = .error "unknown variant SUSPENDED" ∧
    DeploymentStatus.fromJson (.str "READY") = .ok .Ready ∧
    DeploymentSource.fromJson (.str "SUSPENDED") = .ok .Unknown := by
  refine ⟨rfl, ?_, rfl, rfl⟩
  rfl

/-- Claim C3: for every client state and path, each graph-runtime builder
(GET/POST/PATCH/DELETE) yields a request carrying the api-key header and never
an organization-id or tenant header, while each prompt-hub builder
(GET/POST/PUT) carries the api-key header, the organization-id header exactly
when the organization ID is set, and the tenant header exactly when the
workspace ID is set. -/
theorem claim3_header_asymmetry :
    ∀ (c : LangchainClient) (path kg ks : String),
      (c.auth.langgraph_api_key = some kg →
        ∀ r ∈ [c.langgraph_get path, c.langgraph_post path,
               c.langgraph_patch path, c.langgraph_delete path],
          ∃ req, r = .ok req ∧ req.hasHeader "x-api-key" = true ∧
            req.hasHeader "x-organization-id" = false ∧
            req.hasHeader "X-Tenant-Id" = false) ∧
      (c.auth.langsmith_api_key = some ks →
        ∀ r ∈ [c.langsmith_get path, c.langsmith_post path, c.langsmith_put path],
          ∃ req, r = .ok req ∧ req.hasHeader "x-api-key" = true ∧
            req.hasHeader "x-organization-id" = c.organization_id.isSome ∧
            req.hasHeader "X-Tenant-Id" = c.workspace_id.isSome) := by
  intro c path kg ks
  have hkey : c.auth.langgraph_api_key = some kg →
      c.auth.require_langgraph_key = .ok kg := by
    intro h
    unfold AuthConfig.require_langgraph_key
    rw [h]
  have hskey : c.auth.langsmith_api_key = some ks →
      c.auth.require_langsmith_key = .ok ks := by
    intro h
    unfold AuthConfig.require_langsmith_key
    rw [h]
  constructor
  · intro h r hr
    simp only [List.mem_cons, List.not_mem_nil, or_false] at hr
    rcases hr with rfl | rfl | rfl | rfl
    · unfold LangchainClient.langgraph_get
      rw [hkey h]
      exact ⟨_, rfl, rfl, rfl, rfl⟩
    · unfold LangchainClient.langgraph_post
      rw [hkey h]
      exact ⟨_, rfl, rfl, rfl, rfl⟩
    · unfold LangchainClient.langgraph_patch
      rw [hkey h]
      exact ⟨_, rfl, rfl, rfl, rfl⟩
    · unfold LangchainClient.langgraph_delete
      rw [hkey h]
      exact ⟨_, rfl, rfl, rfl, rfl⟩
  · intro h r hr
    simp only [List.mem_cons, List.not_mem_nil, or_false] at hr
    rcases hr with rfl | rfl | rfl
    · unfold LangchainClient.langsmith_get
      rw [hskey h]
      refine ⟨_, rfl, ?_, ?_, ?_⟩ <;>
        cases ho : c.organization_id <;> cases hw : c.workspace_id <;>
          simp [LangchainClient.langsmithHeaders, Request.hasHeader, ho, hw]
    · unfold LangchainClient.langsmith_post
      rw [hskey h]
      refine ⟨_, rfl, ?_, ?_, ?_⟩ <;>
        cases ho : c.organization_id <;> cases hw : c.workspace_id <;>
          simp [LangchainClient.langsmithHeaders, Request.hasHeader, ho, hw]
    · unfold LangchainClient.langsmith_put
      rw [hskey h]
      refine ⟨_, rfl, ?_, ?_, ?_⟩ <;>
        cases ho : c.organization_id <;> cases hw : c.workspace_id <;>
          simp [LangchainClient.langsmithHeaders, Request.hasHeader, ho, hw]

/-- A fully-scoped client (both keys, organization and workspace set) for the
claim C3 witness. -/
def c3Client : LangchainClient :=
  LangchainClient.new
    (AuthConfig.new (some "smith-key") (some "graph-key") (some "org-1") (some "ws-1"))

/-- Witness for claim C3 at a concrete fully-scoped client. -/
theorem claim3_header_asymmetry_witness :
    c3Client.auth.langgraph_api_key = some "graph-key" ∧
    c3Client.auth.langsmith_api_key = some "smith-key" ∧
    (∀ r ∈ [c3Client.langgraph_get "/assistants", c3Client.langgraph_post "/assistants",
            c3Client.langgraph_patch "/assistants", c3Client.langgraph_delete "/assistants"],
      ∃ req, r = .ok req ∧ req.hasHeader "x-api-key" = true ∧
        req.hasHeader "x-organization-id" = false ∧
        req.hasHeader "X-Tenant-Id" = false) ∧
    (∀ r ∈ [c3Client.langsmith_get "/api/v1/repos", c3Client.langsmith_post "/api/v1/repos",
            c3Client.langsmith_put "/api/v1/repos"],
      ∃ req, r = .ok req ∧ req.hasHeader "x-api-key" = true ∧
        req.hasHeader "x-organization-id" = c3Client.organization_id.isSome ∧
        req.hasHeader "X-Tenant-Id" = c3Client.workspace_id.isSome) :=
  ⟨rfl, rfl,
   (claim3_header_asymmetry c3Client "/assistants" "graph-key" "smith-key").1 rfl,
   (claim3_header_asymmetry c3Client "/api/v1/repos" "graph-key" "smith-key").2 rfl⟩

/-- Claim C8: `AssistantClient::list` issues a POST to `/assistants/search`
whose serialized body has no `query` key at all (not `null`, not the empty
string) while carrying the given limit and offset. -/
theorem claim8_assistant_list_empty_search :
    ∀ (c : LangchainClient) (k : String) (limit offset : Nat),
      c.auth.langgraph_api_key = some k →
      ∃ req, AssistantClient.list_request c (some limit) (some offset) = .ok req ∧
        req.method = .POST ∧
        req.url = c.langgraph_base_url ++ "/assistants/search" ∧
        ∃ fields, req.body = some (.obj fields) ∧
          fields.lookup "query" = none ∧
          fields.lookup "limit" = some (.num limit) ∧
          fields.lookup "offset" = some (.num offset) := by
  intro c k limit offset h
  unfold AssistantClient.list_request LangchainClient.langgraph_post
    AuthConfig.require_langgraph_key
  rw [h]
  exact ⟨_, rfl, rfl, rfl, _, rfl, rfl, rfl, rfl⟩

/-- A client with only the graph-runtime key, for the claim C8 witness. -/
def c8Client : LangchainClient :=
  LangchainClient.new (AuthConfig.new none (some "graph-key") none none)

/-- Witness for claim C8 at a concrete client with limit 10 and offset 5. -/
theorem claim8_assistant_list_empty_search_witness :
    c8Client.auth.langgraph_api_key = some "graph-key" ∧
    ∃ req, AssistantClient.list_request c8Client (some 10) (some 5) = .ok req ∧
      req.method = .POST ∧
      req.url = c8Client.langgraph_base_url ++ "/assistants/search" ∧
      ∃ fields, req.body = some (.obj fields) ∧
        fields.lookup "query" = none ∧
        fields.lookup "limit" = some (.num 10) ∧
        fields.lookup "offset" = some (.num 5) :=
  ⟨rfl, claim8_assistant_list_empty_search c8Client "graph-key" 10 5 rfl⟩

/-- A client with only the prompt-hub key, for claim C9. -/
def c9Client : LangchainClient :=
  LangchainClient.new (AuthConfig.new (some "smith-key") none none none)

/-- The request `PromptClient::search` builds for query `"chatbot"` and
limit 5 — the concrete input of the claim C9 counterexample. -/
def c9Req : Request :=
  { method := .GET
    url := LANGSMITH_API_BASE ++ "/api/v1/repos/?query=chatbot&limit=5"
    headers := [("x-api-key", "smith-key"), ("Content-Type", "application/json")]
    body := none }

set_option maxRecDepth 4000 in
/-- Counterexample to claim C9 as stated: the request `PromptClient::search`
issues for query `"chatbot"` and limit 5 has a URL whose character sequence
does not contain `"offset"` as a substring, so its query string does not
carry the offset — `search` has no offset parameter at all. -/
theorem claim9_counterexample :
    PromptClient.search_request c9Client "chatbot" (some 5) = .ok c9Req ∧
    ¬ List.IsInfix (String.toList "offset") (String.toList c9Req.url) := by
  constructor
  · rfl
  · decide

/-- Claim C9, amended: `search` accepts the query, a limit and a visibility
(no offset); it issues a GET against the same list-repos endpoint whose query
string carries the query term and the limit, while `list` issues a GET whose
query string carries the limit and the offset. -/
theorem claim9_search_request_amended :
    ∀ (c : LangchainClient) (k query : String) (limit offset : Nat),
      c.auth.langsmith_api_key = some k →
      (∃ req, PromptClient.search_request c query (some limit) = .ok req ∧
        req.method = .GET ∧
        req.url = c.langsmith_base_url ++
          ("/api/v1/repos/?query=" ++ query ++ "&limit=" ++ toString limit)) ∧
      (∃ req, PromptClient.list_request c (some limit) (some offset) = .ok req ∧
        req.method = .GET ∧
        req.url = c.langsmith_base_url ++
          ("/api/v1/repos/?limit=" ++ toString limit ++ "&offset=" ++ toString offset)) := by
  intro c k query limit offset h
  unfold PromptClient.search_request PromptClient.list_request
    LangchainClient.langsmith_get AuthConfig.require_langsmith_key
  rw [h]
  exact ⟨⟨_, rfl, rfl, rfl⟩, ⟨_, rfl, rfl, rfl⟩⟩

/-- Witness for the amended claim C9 at a concrete client, query and limits. -/
theorem claim9_search_request_amended_witness :
    c9Client.auth.langsmith_api_key = some "smith-key" ∧
    ((∃ req, PromptClient.search_request c9Client "chatbot" (some 5) = .ok req ∧
        req.method = .GET ∧
        req.url = c9Client.langsmith_base_url ++
          ("/api/v1/repos/?query=" ++ "chatbot" ++ "&limit=" ++ toString 5)) ∧
      (∃ req, PromptClient.list_request c9Client (some 5) (some 2) = .ok req ∧
        req.method = .GET ∧
        req.url = c9Client.langsmith_base_url ++
          ("/api/v1/repos/?limit=" ++ toString 5 ++ "&offset=" ++ toString 2))) :=
  ⟨rfl, claim9_search_request_amended c9Client "smith-key" "chatbot" 5 2 rfl⟩

/-! ### Claim C1: scope precedence -/

/-- The organization ID resolved by the CLI pipeline is the CLI flag when
present, else the environment variable when set, else the config-file field:
the environment overwrites the file in `Config::load`, and the flag overwrites
both in `apply_scoping`. -/
lemma resolvedClient_organization_id (file : Config) (env : Env)
    (flag_org flag_ws : Option String) :
    (resolvedClient file env flag_org flag_ws).organization_id =
      (flag_org <|> env.LANGSMITH_ORGANIZATION_ID <|> file.organization_id) := by
  obtain ⟨e1, e2, e3, e4, e5, e6⟩ := env
  cases flag_org <;> cases flag_ws <;> cases e1 <;> cases e2 <;> cases e3 <;>
    cases e4 <;> cases e5 <;> cases e6 <;> rfl

/-- The workspace ID resolved by the CLI pipeline, with the same
flag-over-environment-over-file order. -/
lemma resolvedClient_workspace_id (file : Config) (env : Env)
    (flag_org flag_ws : Option String) :
    (resolvedClient file env flag_org flag_ws).workspace_id =
      (flag_ws <|> env.LANGSMITH_WORKSPACE_ID <|> file.workspace_id) := by
  obtain ⟨e1, e2, e3, e4, e5, e6⟩ := env
  cases flag_org <;> cases flag_ws <;> cases e1 <;> cases e2 <;> cases e3 <;>
    cases e4 <;> cases e5 <;> cases e6 <;> rfl

/-- A client whose organization ID resolved to nothing sends no
`x-organization-id` header on prompt-hub requests. -/
lemma langsmith_get_no_org_header (c : LangchainClient) (path : String) (req : Request)
    (horg : c.organization_id = none) (hok : c.langsmith_get path = .ok req) :
    req.hasHeader "x-organization-id" = false := by
  unfold LangchainClient.langsmith_get AuthConfig.require_langsmith_key at hok
  cases hk : c.auth.langsmith_api_key with
  | none =>
      rw [hk] at hok
      exact absurd hok (by simp)
  | some k =>
      rw [hk] at hok
      simp only [Except.ok.injEq] at hok
      subst hok
      unfold Request.hasHeader LangchainClient.langsmithHeaders
      rw [horg]
      cases hw : c.workspace_id <;> rfl

/-- A file config whose organization ID is `"file-org"`, for the claim C1
counterexample. -/
def c1File : Config :=
  { Config.defaultValue with
    langsmith_api_key := some "smith-key"
    organization_id := some "file-org" }

/-- An environment in which only `LANGSMITH_ORGANIZATION_ID` is set (to
`"env-org"`), for the claim C1 counterexample. -/
def c1Env : Env :=
  { LANGSMITH_API_KEY := none
    LANGGRAPH_API_KEY := none
    LANGSMITH_ORGANIZATION_ID := some "env-org"
    LANGSMITH_WORKSPACE_ID := none
    LANGGRAPH_GITHUB_INTEGRATION_ID := none
    LANGSTAR_OUTPUT_FORMAT := none }

/-- Counterexample to claim C1 as stated: with no CLI flag, the config file
supplying `"file-org"` and the environment supplying `"env-org"`, the resolved
organization ID is `"env-org"` — the environment variable, not the config
file, wins, contradicting the claimed order CLI flag > config file >
environment variable. -/
theorem claim1_counterexample :
    (resolvedClient c1File c1Env none none).organization_id = some "env-org" ∧
    (resolvedClient c1File c1Env none none).organization_id ≠ some "file-org" := by
  constructor
  · rfl
  · intro h
    simp only [show (resolvedClient c1File c1Env none none).organization_id =
      some "env-org" from rfl, Option.some.injEq] at h
    exact absurd h (by decide)

/-- Claim C1, amended: for every combination of the three sources, the
resolved organization ID (and workspace ID) equals the highest-priority
present source in the order CLI flag > environment variable > config-file
field (`Config::load` overwrites the file with the environment, and
`apply_scoping` overwrites both with the flag); absence of all three resolves
to nothing, and a client with no organization ID sends no `x-organization-id`
header on prompt-hub requests. -/
theorem claim1_scope_precedence_amended :
    (∀ (file : Config) (env : Env) (flag_org flag_ws : Option String),
      (resolvedClient file env flag_org flag_ws).organization_id =
        (flag_org <|> env.LANGSMITH_ORGANIZATION_ID <|> file.organization_id) ∧
      (resolvedClient file env flag_org flag_ws).workspace_id =
        (flag_ws <|> env.LANGSMITH_WORKSPACE_ID <|> file.workspace_id)) ∧
    (∀ (c : LangchainClient) (path : String) (req : Request),
      c.organization_id = none → c.langsmith_get path = .ok req →
      req.hasHeader "x-organization-id" = false) :=
  ⟨fun file env flag_org flag_ws =>
    ⟨resolvedClient_organization_id file env flag_org flag_ws,
     resolvedClient_workspace_id file env flag_org flag_ws⟩,
   fun c path req horg hok => langsmith_get_no_org_header c path req horg hok⟩

/-- An environment with nothing set, for the claim C1 witness. -/
def c1EmptyEnv : Env :=
  { LANGSMITH_API_KEY := none
    LANGGRAPH_API_KEY := none
    LANGSMITH_ORGANIZATION_ID := none
    LANGSMITH_WORKSPACE_ID := none
    LANGGRAPH_GITHUB_INTEGRATION_ID := none
    LANGSTAR_OUTPUT_FORMAT := none }

/-- A client with a prompt-hub key, no organization ID and a workspace ID,
for the claim C1 witness. -/
def c1Client : LangchainClient :=
  LangchainClient.new (AuthConfig.new (some "smith-key") none none (some "ws-1"))

/-- The request `langsmith_get` builds for `c1Client`, for the claim C1
witness. -/
def c1Req : Request :=
  { method := .GET
    url := LANGSMITH_API_BASE ++ "/api/v1/repos/"
    headers := [("x-api-key", "smith-key"), ("Content-Type", "application/json"),
                ("X-Tenant-Id", "ws-1")]
    body := none }

/-- Witness for the amended claim C1: the flag beats the environment, the
environment beats the file, absence of all three resolves to nothing, and the
org-less concrete request carries no organization header. -/
theorem claim1_scope_precedence_amended_witness :
    (resolvedClient c1File c1Env (some "flag-org") none).organization_id =
      some "flag-org" ∧
    (resolvedClient c1File c1Env none none).organization_id = some "env-org" ∧
    (resolvedClient c1File c1EmptyEnv none none).organization_id = some "file-org" ∧
    (resolvedClient Config.defaultValue c1EmptyEnv none none).organization_id = none ∧
    c1Req.hasHeader "x-organization-id" = false :=
  ⟨(claim1_scope_precedence_amended.1 c1File c1Env (some "flag-org") none).1,
   (claim1_scope_precedence_amended.1 c1File c1Env none none).1,
   (claim1_scope_precedence_amended.1 c1File c1EmptyEnv none none).1,
   (claim1_scope_precedence_amended.1 Config.defaultValue c1EmptyEnv none none).1,
   claim1_scope_precedence_amended.2 c1Client "/api/v1/repos/" c1Req rfl rfl⟩

/-! ### Claim C6: integration discovery -/

/-- `find_integration_for_repo` returns the id of the first integration whose
listing succeeds and contains the owner+name match; earlier integrations that
fail to list or do not match are skipped. -/
lemma find_integration_first_match
    (repos : String → Except LangstarError (List GitHubRepository))
    (owner repo : String) (pre : List GitHubIntegration) (i : GitHubIntegration)
    (post : List GitHubIntegration)
    (hpre : ∀ j ∈ pre, listingMatches repos owner repo j = false)
    (hi : listingMatches repos owner repo i = true) :
    find_integration_for_repo repos (pre ++ i :: post) owner repo = .ok i.id := by
  induction pre with
  | nil =>
      unfold listingMatches at hi
      simp only [List.nil_append]
      unfold find_integration_for_repo
      cases hrep : repos i.id with
      | ok rs =>
          simp only [hrep] at hi
          simp [hi]
      | error e =>
          simp only [hrep] at hi
          exact absurd hi (by simp)
  | cons j js ih =>
      have hj := hpre j (List.mem_cons_self j js)
      have hrest : ∀ k ∈ js, listingMatches repos owner repo k = false :=
        fun k hk => hpre k (List.mem_cons_of_mem j hk)
      unfold listingMatches at hj
      simp only [List.cons_append]
      unfold find_integration_for_repo
      cases hrep : repos j.id with
      | ok rs =>
          simp only [hrep] at hj
          simp only [hj, Bool.false_eq_true, if_false]
          exact ih hrest
      | error e =>
          exact ih hrest

/-- `find_integration_for_repo` fails — necessarily with the 404 not-found
`ApiError` — exactly when no integration's successful listing contains the
owner+name match. -/
lemma find_integration_error_iff
    (repos : String → Except LangstarError (List GitHubRepository))
    (owner repo : String) (integrations : List GitHubIntegration) :
    (find_integration_for_repo repos integrations owner repo =
      .error (.ApiError 404 ("No integration found with access to " ++ owner ++ "/" ++ repo))) ↔
    ∀ j ∈ integrations, listingMatches repos owner repo j = false := by
  induction integrations with
  | nil =>
      simp [find_integration_for_repo]
  | cons i rest ih =>
      unfold find_integration_for_repo
      cases hrep : repos i.id with
      | ok rs =>
          by_cases hany : rs.any (fun r => r.owner == owner && r.name == repo) = true
          · simp [hany, List.forall_mem_cons, listingMatches, hrep]
          · simp only [Bool.not_eq_true] at hany
            simp [hany, List.forall_mem_cons, listingMatches, hrep, ih]
      | error e =>
          simp [List.forall_mem_cons, listingMatches, hrep, ih]

/-- Claim C6: `find_integration_for_repo` returns the id of the first
integration, in enumeration order, whose repository listing contains the
owner+name match; an integration whose listing call fails is skipped without
aborting; and it fails with the not-found 404 error if and only if no
successful listing contains the match once all integrations are exhausted. -/
theorem claim6_find_integration_for_repo :
    (∀ (repos : String → Except LangstarError (List GitHubRepository))
       (owner repo : String) (pre : List GitHubIntegration) (i : GitHubIntegration)
       (post : List GitHubIntegration),
      (∀ j ∈ pre, listingMatches repos owner repo j = false) →
      listingMatches repos owner repo i = true →
      find_integration_for_repo repos (pre ++ i :: post) owner repo = .ok i.id) ∧
    (∀ (repos : String → Except LangstarError (List GitHubRepository))
       (owner repo : String) (integrations : List GitHubIntegration),
      (find_integration_for_repo repos integrations owner repo =
        .error (.ApiError 404
          ("No integration found with access to " ++ owner ++ "/" ++ repo))) ↔
      ∀ j ∈ integrations, listingMatches repos owner repo j = false) :=
  ⟨fun repos owner repo pre i post hpre hi =>
    find_integration_first_match repos owner repo pre i post hpre hi,
   fun repos owner repo integrations =>
    find_integration_error_iff repos owner repo integrations⟩

/-- A concrete repository-listing environment for the claim C6 witness: the
first integration's listing fails, the second succeeds without the match, the
third succeeds with the match. -/
def c6repos : String → Except LangstarError (List GitHubRepository) :=
  fun id =>
    if id = "int-1" then .error (.ApiError 500 "listing failed")
    else if id = "int-2" then .ok [⟨"someone", "other-repo"⟩]
    else if id = "int-3" then .ok [⟨"acme", "widgets"⟩, ⟨"codekiln", "langstar"⟩]
    else .ok []

/-- Witness for claim C6: with the failing first integration skipped, the
third integration's id is returned; restricted to the first two integrations
the search exhausts and the 404 characterization applies. -/
theorem claim6_find_integration_for_repo_witness :
    find_integration_for_repo c6repos
      [⟨"int-1", none⟩, ⟨"int-2", none⟩, ⟨"int-3", none⟩] "codekiln" "langstar" =
      .ok "int-3" ∧
    (find_integration_for_repo c6repos [⟨"int-1", none⟩, ⟨"int-2", none⟩]
        "codekiln" "langstar" =
      .error (.ApiError 404
        ("No integration found with access to " ++ "codekiln" ++ "/" ++ "langstar")) ↔
      ∀ j ∈ ([⟨"int-1", none⟩, ⟨"int-2", none⟩] : List GitHubIntegration),
        listingMatches c6repos "codekiln" "langstar" j = false) :=
  ⟨claim6_find_integration_for_repo.1 c6repos "codekiln" "langstar"
      [⟨"int-1", none⟩, ⟨"int-2", none⟩] ⟨"int-3", none⟩ [] (by decide) (by decide),
   claim6_find_integration_for_repo.2 c6repos "codekiln" "langstar"
      [⟨"int-1", none⟩, ⟨"int-2", none⟩]⟩

end Langstar
